import Mathlib

/-!
Verification of the `domains:add` domain-attachment workflow of
`src/commandHandler.ts` (the Domain Provisioning Monitor).

The handler registers the domain, prints "Generating SSL Certificate...",
then starts two timers:

* `setInterval(async () => { const result = await repository.domainStatus(domain); ... }, 500)`
  — the poll timer; each tick fetches the remote status and branches on
  `result.status` ("ok" / "pending" / "error") and, inside the "error"
  branch, on `result.context == "invalid_domain"`.
* `setTimeout(() => { logger.error(...); clearInterval(interval) }, 20000)`
  — the single-shot deadline timer.

We embed the two callback bodies directly (`tickBody`, `deadlineBody`) and
drive them with an explicit event trace.  The step function delivers a tick
event only while the interval has not been cleared and a deadline event only
while the timeout has not been cleared or fired — this is the JavaScript
timer guarantee (`clearInterval` / `clearTimeout` are synchronous and a
cleared timer never fires); the callback bodies themselves contain no state
check, exactly as in the source.

A second, asynchronous model (`AsyncState`, `stepAsync`) separates the
moment a tick issues its `domainStatus` request from the moment the response
arrives and the rest of the callback body runs, tracking how many requests
are in flight.  This is needed because the interval callback is `async`:
`setInterval` does not wait for the previous callback's `await` to resolve.
-/

namespace Gendocs

/-- The remote `domainStatus(domainName)` response shape:
`{ status: "ok" | "pending" | "error", context?: string }`.
The handler only ever reads `result.status` and `result.context`. -/
structure DomainStatus where
  status : String
  context : Option String
deriving DecidableEq

/-- Which logger method a message was emitted through
(the handler uses `logger.info` and `logger.error`). -/
inductive LogLevel where
  | info
  | error
deriving DecidableEq

/-- The messages the `domains:add` handler can emit, tagged by their
template; `renderMsg` gives the exact interpolated text. -/
inductive Msg where
  | generating
  | success (domain : String)
  | malformed (domain : String)
  | genericError (context : Option String)
  | timedOut
deriving DecidableEq

/-- JavaScript string interpolation of a possibly-absent value:
`${undefined}` renders as `"undefined"`. -/
def interpOpt : Option String → String
  | some c => c
  | none => "undefined"

/-- Exact rendered text of each message, transcribed from the template
literals at `commandHandler.ts` lines 210-212, 219-222, 236-239, 243-246
and 256 (including their leading newline and indentation). -/
def renderMsg : Msg → String
  | .generating => "\n    Generating SSL Certificate...\n    "
  | .success d =>
      "\n    Your domain has been added!\n    The site is now available at https://"
        ++ d ++ "/\n        "
  | .malformed d =>
      "\n    The domain \"" ++ d
        ++ "\" seems to be malformed.\n    Please make sure your domain is in the format somedomain.com\n          "
  | .genericError c =>
      "\n    Something seems to have gone wrong while trying to generate your ssl certificates.\n    Error code: "
        ++ interpOpt c ++ "\n        "
  | .timedOut => "Something seems to have gone wrong. Please contact us through our github."

/-- One logger call: the method used and the message passed to it. -/
structure LogEntry where
  level : LogLevel
  msg : Msg
deriving DecidableEq

/-- Observable state of one `domains:add` invocation: whether the interval
(poll timer) and the timeout (deadline timer) are still armed, and the
sequence of logger calls so far. -/
structure MonitorState where
  intervalActive : Bool
  timeoutActive : Bool
  log : List LogEntry
deriving DecidableEq

/-- The body of the interval callback (`commandHandler.ts` lines 217-252),
given the `domainStatus` response `r`:

* `status == "ok"`: log the success message, `clearTimeout(timeout)`
  (the handle is always non-null by the first tick, since `setTimeout` runs
  synchronously right after `setInterval`), `clearInterval(interval)`, return;
* `status == "pending"`: return with no effect;
* `status == "error"` and `context == "invalid_domain"`: log the
  malformed-domain message and return — the source clears NEITHER timer here;
* `status == "error"` otherwise: log the generic certificate error with the
  raw context, `clearTimeout`, `clearInterval`;
* any other status string: fall through all branches, no effect. -/
def tickBody (domain : String) (s : MonitorState) (r : DomainStatus) : MonitorState :=
  if r.status = "ok" then
    { s with log := s.log ++ [⟨.info, .success domain⟩],
             timeoutActive := false, intervalActive := false }
  else if r.status = "pending" then
    s
  else if r.status = "error" then
    if r.context = some "invalid_domain" then
      { s with log := s.log ++ [⟨.info, .malformed domain⟩] }
    else
      { s with log := s.log ++ [⟨.error, .genericError r.context⟩],
               timeoutActive := false, intervalActive := false }
  else
    s

/-- The body of the timeout callback (`commandHandler.ts` lines 255-258):
log the contact-us message with `logger.error` and `clearInterval(interval)`.
The timeout is single-shot, so it is disarmed by firing. -/
def deadlineBody (s : MonitorState) : MonitorState :=
  { s with log := s.log ++ [⟨.error, .timedOut⟩],
           intervalActive := false, timeoutActive := false }

/-- Timer events: a poll tick carrying the response the remote returns to
that tick's `domainStatus` call, or the deadline firing. -/
inductive Ev where
  | tick (r : DomainStatus)
  | deadline
deriving DecidableEq

/-- Deliver one timer event.  A tick runs `tickBody` only if the interval
has not been cleared; the deadline runs `deadlineBody` only if the timeout
has not been cleared or already fired.  These guards are the JavaScript
runtime's cancellation semantics, not checks present in the callback code. -/
def step (domain : String) (s : MonitorState) : Ev → MonitorState
  | .tick r => if s.intervalActive then tickBody domain s r else s
  | .deadline => if s.timeoutActive then deadlineBody s else s

/-- Deliver a sequence of timer events in order. -/
def runEvents (domain : String) (s : MonitorState) : List Ev → MonitorState
  | [] => s
  | e :: es => runEvents domain (step domain s e) es

/-- State right after `setInterval` and `setTimeout` have been installed:
both timers armed, "Generating SSL Certificate..." already logged
(`commandHandler.ts` lines 210-212). -/
def initState : MonitorState :=
  { intervalActive := true, timeoutActive := true, log := [⟨.info, .generating⟩] }

/-- The literal second argument of `setInterval` (`commandHandler.ts` line 253). -/
def pollIntervalMs : Nat := 500

/-- The literal second argument of `setTimeout` (`commandHandler.ts` line 258). -/
def deadlineMs : Nat := 20000

/-- `setInterval` schedule: the n-th tick (0-based) fires after n+1 intervals. -/
def pollTickTime (n : Nat) : Nat := (n + 1) * pollIntervalMs

/-- Classifies the messages that report a terminal outcome of the workflow
(success / malformed domain / generic provisioning error / timeout);
only the initial "Generating SSL Certificate..." banner is not one. -/
def isTerminalMsg : Msg → Bool
  | .generating => false
  | .success _ => true
  | .malformed _ => true
  | .genericError _ => true
  | .timedOut => true

/-- Asynchronous view of the same handler: `outstanding` counts
`domainStatus` requests that have been issued (the part of the interval
callback before `await`) whose responses have not yet arrived. -/
structure AsyncState where
  intervalActive : Bool
  timeoutActive : Bool
  outstanding : Nat
  log : List LogEntry
deriving DecidableEq

/-- The part of the interval callback after `await repository.domainStatus`
resolves, on the asynchronous state; same branching as `tickBody`. -/
def processResponse (domain : String) (s : AsyncState) (r : DomainStatus) : AsyncState :=
  if r.status = "ok" then
    { s with log := s.log ++ [⟨.info, .success domain⟩],
             timeoutActive := false, intervalActive := false }
  else if r.status = "pending" then
    s
  else if r.status = "error" then
    if r.context = some "invalid_domain" then
      { s with log := s.log ++ [⟨.info, .malformed domain⟩] }
    else
      { s with log := s.log ++ [⟨.error, .genericError r.context⟩],
               timeoutActive := false, intervalActive := false }
  else
    s

/-- Asynchronous events: an interval tick starting its callback (which
immediately issues a `domainStatus` request), a response arriving for one
outstanding request, or the deadline firing. -/
inductive AEv where
  | tickFire
  | response (r : DomainStatus)
  | deadline
deriving DecidableEq

/-- Asynchronous step.  A firing tick issues a request unconditionally —
the source has no outstanding-request guard.  A response resumes the
suspended callback body even if the interval was cleared in the meantime
(the continuation after `await` runs regardless of `clearInterval`).
A `response` with nothing outstanding cannot occur and is a no-op. -/
def stepAsync (domain : String) (s : AsyncState) : AEv → AsyncState
  | .tickFire =>
      if s.intervalActive then { s with outstanding := s.outstanding + 1 } else s
  | .response r =>
      if s.outstanding = 0 then s
      else processResponse domain { s with outstanding := s.outstanding - 1 } r
  | .deadline =>
      if s.timeoutActive then
        { s with log := s.log ++ [⟨.error, .timedOut⟩],
                 intervalActive := false, timeoutActive := false }
      else s

/-- Deliver a sequence of asynchronous events in order. -/
def runAsync (domain : String) (s : AsyncState) : List AEv → AsyncState
  | [] => s
  | e :: es => runAsync domain (stepAsync domain s e) es

/-- Initial asynchronous state: both timers armed, no request in flight. -/
def initAsync : AsyncState :=
  { intervalActive := true, timeoutActive := true, outstanding := 0,
    log := [⟨.info, .generating⟩] }

/-! ### Helper lemmas -/

/-- Once both timers are disarmed, a single delivered event changes nothing. -/
theorem step_terminal (d : String) (s : MonitorState) (e : Ev)
    (h1 : s.intervalActive = false) (h2 : s.timeoutActive = false) :
    step d s e = s := by
  cases e <;> simp [step, h1, h2]

/-- Once both timers are disarmed, no sequence of delivered events changes anything. -/
theorem runEvents_terminal (d : String) (s : MonitorState) (evs : List Ev)
    (h1 : s.intervalActive = false) (h2 : s.timeoutActive = false) :
    runEvents d s evs = s := by
  induction evs with
  | nil => rfl
  | cons e es ih =>
      show runEvents d (step d s e) es = s
      rw [step_terminal d s e h1 h2]
      exact ih

/-- Running a concatenation of event lists runs them in sequence. -/
theorem runEvents_append (d : String) (s : MonitorState) (l1 l2 : List Ev) :
    runEvents d s (l1 ++ l2) = runEvents d (runEvents d s l1) l2 := by
  induction l1 generalizing s with
  | nil => rfl
  | cons e es ih => simp [runEvents, ih]

/-- A tick is a "pending" tick if its response carries status "pending". -/
def isPendingTick : Ev → Bool
  | .tick r => r.status == "pending"
  | .deadline => false

/-- A pending tick leaves the state unchanged. -/
theorem step_of_pending (d : String) (s : MonitorState) (e : Ev)
    (h : isPendingTick e = true) : step d s e = s := by
  cases e with
  | tick r =>
      have hs : r.status = "pending" := by simpa [isPendingTick] using h
      by_cases hA : s.intervalActive
      · simp [step, hA, tickBody, hs]
      · simp [step, hA]
  | deadline => simp [isPendingTick] at h

/-- A sequence of pending ticks leaves the state unchanged. -/
theorem runEvents_of_pending (d : String) (s : MonitorState) (evs : List Ev)
    (h : ∀ e ∈ evs, isPendingTick e = true) : runEvents d s evs = s := by
  induction evs with
  | nil => rfl
  | cons e es ih =>
      show runEvents d (step d s e) es = s
      rw [step_of_pending d s e (h e (List.mem_cons_self e es))]
      exact ih fun x hx => h x (List.mem_cons_of_mem e hx)

/-! ### Claims -/

/-- C1: the claim states that a `Failed{context: "invalid_domain"}` poll
response cancels both timers and terminates polling.  In the source the
`invalid_domain` branch logs the malformed-domain message and returns
WITHOUT `clearInterval`/`clearTimeout`: after that response both timers are
still armed, and a further tick with the same response logs the
malformed-domain message a second time. -/
theorem invalidDomain_leaves_timers_running :
    (runEvents "example.com" initState
        [Ev.tick ⟨"error", some "invalid_domain"⟩]).intervalActive = true ∧
    (runEvents "example.com" initState
        [Ev.tick ⟨"error", some "invalid_domain"⟩]).timeoutActive = true ∧
    (runEvents "example.com" initState
        [Ev.tick ⟨"error", some "invalid_domain"⟩]).log
      = [⟨.info, .generating⟩, ⟨.info, .malformed "example.com"⟩] ∧
    (runEvents "example.com" initState
        [Ev.tick ⟨"error", some "invalid_domain"⟩,
         Ev.tick ⟨"error", some "invalid_domain"⟩]).log
      = [⟨.info, .generating⟩, ⟨.info, .malformed "example.com"⟩,
         ⟨.info, .malformed "example.com"⟩] := by
  decide

/-- C2: the claim states that at most one terminal outcome is ever
reported.  Because the `invalid_domain` branch does not cancel the timers,
the response sequence `[Failed{invalid_domain}, Ready]` makes the handler
report the malformed-domain (FailedTerminal) message and then the success
(Succeeded) message: two terminal-outcome reports in one run. -/
theorem duplicate_terminal_reports :
    ¬ (((runEvents "example.com" initState
          [Ev.tick ⟨"error", some "invalid_domain"⟩, Ev.tick ⟨"ok", none⟩]).log.filter
            (fun e => isTerminalMsg e.msg)).length ≤ 1) ∧
    ((runEvents "example.com" initState
        [Ev.tick ⟨"error", some "invalid_domain"⟩, Ev.tick ⟨"ok", none⟩]).log.filter
          (fun e => isTerminalMsg e.msg))
      = [⟨.info, .malformed "example.com"⟩, ⟨.info, .success "example.com"⟩] := by
  decide

/-- C3 counterexample: the claim states that at most one `domainStatus`
request is outstanding at any point.  The interval callback is `async` and
`setInterval` does not wait for it, so if the first response is slower than
the 500ms interval, the second tick fires while the first request is still
in flight and issues another: two outstanding requests. -/
theorem overlapping_outstanding_requests :
    ¬ ((runAsync "example.com" initAsync [AEv.tickFire, AEv.tickFire]).outstanding ≤ 1) := by
  decide

/-- C3 amended: a tick that fires while the interval is armed always issues
a `domainStatus` request, with no skip-if-outstanding guard — the number of
in-flight requests simply increases by one. -/
theorem tick_always_issues_request (d : String) (s : AsyncState)
    (h : s.intervalActive = true) :
    (stepAsync d s AEv.tickFire).outstanding = s.outstanding + 1 := by
  simp [stepAsync, h]

/-- Witness for `tick_always_issues_request` at the initial state. -/
theorem tick_always_issues_request_witness :
    (stepAsync "example.com" initAsync AEv.tickFire).outstanding
      = initAsync.outstanding + 1 :=
  tick_always_issues_request "example.com" initAsync rfl

/-- C4 counterexample: the claim states that the implementation checks the
monitor state defensively on every tick, so a late-firing timer is a no-op.
The callback body has no such check: invoked on the state reached after a
successful (terminal) tick — both timers already cancelled — it logs the
success message again, changing the state. -/
theorem late_tick_callback_not_guarded :
    ((runEvents "example.com" initState [Ev.tick ⟨"ok", none⟩]).intervalActive = false ∧
     (runEvents "example.com" initState [Ev.tick ⟨"ok", none⟩]).timeoutActive = false) ∧
    tickBody "example.com" (runEvents "example.com" initState [Ev.tick ⟨"ok", none⟩])
        ⟨"ok", none⟩
      ≠ runEvents "example.com" initState [Ev.tick ⟨"ok", none⟩] := by
  decide

/-- C4 amended: once both timers have been cancelled by a terminal
transition, every subsequently delivered timer event — any sequence of poll
ticks and deadline firings — is a no-op, this being guaranteed solely by
timer cancellation (the synchronous `clearInterval`/`clearTimeout`
semantics), not by any state check in the callbacks. -/
theorem terminal_state_events_noop (d : String) (s : MonitorState) (evs : List Ev)
    (h1 : s.intervalActive = false) (h2 : s.timeoutActive = false) :
    runEvents d s evs = s :=
  runEvents_terminal d s evs h1 h2

/-- Witness for `terminal_state_events_noop` at a concrete terminal state. -/
theorem terminal_state_events_noop_witness :
    runEvents "example.com"
        ⟨false, false, [⟨.info, .generating⟩, ⟨.info, .success "example.com"⟩]⟩
        [Ev.tick ⟨"ok", none⟩, Ev.deadline]
      = ⟨false, false, [⟨.info, .generating⟩, ⟨.info, .success "example.com"⟩]⟩ :=
  terminal_state_events_noop "example.com"
    ⟨false, false, [⟨.info, .generating⟩, ⟨.info, .success "example.com"⟩]⟩
    [Ev.tick ⟨"ok", none⟩, Ev.deadline] rfl rfl

/-- C5: if every poll response is "pending" until the deadline fires, the
run logs exactly one extra message — the timeout contact-us message, via
`logger.error` — the deadline disarms both timers (it clears the interval
and is itself spent), and no later event has any effect: the workflow
resolves to TimedOut exactly once and never polls again. -/
theorem pending_until_deadline_timesOut (d : String) (evs : List Ev)
    (h : ∀ e ∈ evs, isPendingTick e = true) :
    (runEvents d initState (evs ++ [Ev.deadline])).log
        = initState.log ++ [⟨.error, .timedOut⟩] ∧
    (runEvents d initState (evs ++ [Ev.deadline])).intervalActive = false ∧
    (runEvents d initState (evs ++ [Ev.deadline])).timeoutActive = false ∧
    ∀ late : List Ev,
      runEvents d (runEvents d initState (evs ++ [Ev.deadline])) late
        = runEvents d initState (evs ++ [Ev.deadline]) := by
  have hrun : runEvents d initState (evs ++ [Ev.deadline])
      = { intervalActive := false, timeoutActive := false,
          log := initState.log ++ [⟨.error, .timedOut⟩] } := by
    rw [runEvents_append, runEvents_of_pending d initState evs h]
    rfl
  refine ⟨by rw [hrun], by rw [hrun], by rw [hrun], fun late => ?_⟩
  rw [hrun]
  exact runEvents_terminal d _ late rfl rfl

/-- Witness for `pending_until_deadline_timesOut` with one pending poll. -/
theorem pending_until_deadline_timesOut_witness :
    (runEvents "example.com" initState
        ([Ev.tick ⟨"pending", none⟩] ++ [Ev.deadline])).log
      = initState.log ++ [⟨.error, .timedOut⟩] :=
  (pending_until_deadline_timesOut "example.com"
    [Ev.tick ⟨"pending", none⟩] (by decide)).1

/-- C6: a tick whose response has status "ok" (Ready), delivered while the
poll timer is armed, cancels both timers and logs the success message via
`logger.info`; that message reports the attached site URL in the form
`https://<domain>/`. -/
theorem ready_tick_succeeds (d : String) (s : MonitorState) (c : Option String)
    (h : s.intervalActive = true) :
    (step d s (Ev.tick ⟨"ok", c⟩)).intervalActive = false ∧
    (step d s (Ev.tick ⟨"ok", c⟩)).timeoutActive = false ∧
    (step d s (Ev.tick ⟨"ok", c⟩)).log = s.log ++ [⟨.info, .success d⟩] ∧
    renderMsg (.success d)
      = "\n    Your domain has been added!\n    The site is now available at "
          ++ ("https://" ++ d ++ "/") ++ "\n        " := by
  refine ⟨?_, ?_, ?_, ?_⟩
  · simp [step, h, tickBody]
  · simp [step, h, tickBody]
  · simp [step, h, tickBody]
  · simp only [renderMsg, String.append_assoc]
    rfl

/-- Witness for `ready_tick_succeeds` at the initial state. -/
theorem ready_tick_succeeds_witness :
    (step "example.com" initState (Ev.tick ⟨"ok", none⟩)).log
        = initState.log ++ [⟨.info, .success "example.com"⟩] ∧
    renderMsg (.success "example.com")
      = "\n    Your domain has been added!\n    The site is now available at "
          ++ ("https://" ++ "example.com" ++ "/") ++ "\n        " :=
  ⟨(ready_tick_succeeds "example.com" initState none rfl).2.2.1,
   (ready_tick_succeeds "example.com" initState none rfl).2.2.2⟩

/-- C7: a tick whose response has status "error" and whose context is
anything other than `"invalid_domain"`, delivered while the poll timer is
armed, cancels both timers and logs the generic certificate-provisioning
error via `logger.error`; when the context is present, the rendered message
embeds the raw context value after "Error code: ". -/
theorem failed_tick_generic_error (d : String) (s : MonitorState) (c : Option String)
    (hA : s.intervalActive = true) (hc : c ≠ some "invalid_domain") :
    (step d s (Ev.tick ⟨"error", c⟩)).intervalActive = false ∧
    (step d s (Ev.tick ⟨"error", c⟩)).timeoutActive = false ∧
    (step d s (Ev.tick ⟨"error", c⟩)).log = s.log ++ [⟨.error, .genericError c⟩] ∧
    ∀ code : String, c = some code →
      renderMsg (.genericError c)
        = "\n    Something seems to have gone wrong while trying to generate your ssl certificates.\n    Error code: "
            ++ code ++ "\n        " := by
  refine ⟨?_, ?_, ?_, ?_⟩
  · simp [step, hA, tickBody, hc]
  · simp [step, hA, tickBody, hc]
  · simp [step, hA, tickBody, hc]
  · intro code hcode
    subst hcode
    simp [renderMsg, interpOpt]

/-- Witness for `failed_tick_generic_error` with context
`"cert_issuer_unreachable"`. -/
theorem failed_tick_generic_error_witness :
    (step "example.com" initState
        (Ev.tick ⟨"error", some "cert_issuer_unreachable"⟩)).log
      = initState.log ++ [⟨.error, .genericError (some "cert_issuer_unreachable")⟩] ∧
    renderMsg (.genericError (some "cert_issuer_unreachable"))
      = "\n    Something seems to have gone wrong while trying to generate your ssl certificates.\n    Error code: "
          ++ "cert_issuer_unreachable" ++ "\n        " :=
  ⟨(failed_tick_generic_error "example.com" initState
      (some "cert_issuer_unreachable") rfl (by decide)).2.2.1,
   (failed_tick_generic_error "example.com" initState
      (some "cert_issuer_unreachable") rfl (by decide)).2.2.2
      "cert_issuer_unreachable" rfl⟩

/-- C8: the poll timer interval is the literal 500 (milliseconds) and the
deadline is the literal 20000 milliseconds = 20 seconds; both timers are
armed as soon as the workflow starts, the n-th poll tick is scheduled at
(n+1)·500 ms, and the deadline is single-shot: after its body has run, a
second deadline event is a no-op. -/
theorem timer_constants :
    pollIntervalMs = 500 ∧ deadlineMs = 20000 ∧ deadlineMs = 20 * 1000 ∧
    initState.intervalActive = true ∧ initState.timeoutActive = true ∧
    (∀ n : Nat, pollTickTime n = (n + 1) * 500) ∧
    (∀ (d : String) (s : MonitorState),
      step d (deadlineBody s) Ev.deadline = deadlineBody s) := by
  refine ⟨rfl, rfl, rfl, rfl, rfl, fun n => rfl, fun d s => ?_⟩
  simp [step, deadlineBody]

/-- C9: a tick whose response has status "pending" changes nothing at all —
the callback body returns the state unchanged (no log entry, no timer
change), and so does the full delivered event whatever the timer flags. -/
theorem pending_tick_noop (d : String) (s : MonitorState) (c : Option String) :
    tickBody d s ⟨"pending", c⟩ = s ∧ step d s (Ev.tick ⟨"pending", c⟩) = s := by
  have hb : tickBody d s ⟨"pending", c⟩ = s := by simp [tickBody]
  refine ⟨hb, ?_⟩
  by_cases hA : s.intervalActive <;> simp [step, hA, hb]

/-- C10: a tick whose response status is none of "ok", "pending", "error"
falls through every branch of the callback: no log entry, no timer change —
exactly the behaviour of a "pending" response. -/
theorem unknown_status_tick_noop (d : String) (s : MonitorState) (r : DomainStatus)
    (h1 : r.status ≠ "ok") (h2 : r.status ≠ "pending") (h3 : r.status ≠ "error") :
    tickBody d s r = s ∧ step d s (Ev.tick r) = s ∧
    tickBody d s r = tickBody d s ⟨"pending", r.context⟩ := by
  have hb : tickBody d s r = s := by simp [tickBody, h1, h2, h3]
  refine ⟨hb, ?_, ?_⟩
  · by_cases hA : s.intervalActive <;> simp [step, hA, hb]
  · rw [hb]
    simp [tickBody]

/-- Witness for `unknown_status_tick_noop` at status "provisioning". -/
theorem unknown_status_tick_noop_witness :
    tickBody "example.com" initState ⟨"provisioning", none⟩ = initState :=
  (unknown_status_tick_noop "example.com" initState ⟨"provisioning", none⟩
    (by decide) (by decide) (by decide)).1

end Gendocs
